import Mathlib

/-!
Verification development for the medical-documentation service
(src/models.py, src/gemini_processor.py, src/main.py).

The mapping layer `_parse_response` (gemini_processor.py, lines 428-494) is
embedded as `parseResponse` over a shallow JSON model.  Python semantics are
made explicit:

* `dict.get(k)` / `dict.get(k, d)` distinguish an absent key from a key
  present with value `null` (Python `None`); calling `.get` on a non-dict
  raises `AttributeError` (modelled as `Option.none`).
* Python `for x in v` iterates lists elementwise, strings per character and
  dicts over their keys, and raises `TypeError` on other values (`pyIter`).
* Python truthiness (`if v:`) is `Json.truthy`.
* Pydantic (v2) model construction validates fields: a required `str` field
  must receive a string (a missing key or a `null`/non-string value raises a
  `ValidationError`); an `Optional[str]` field accepts `null` as `None` and
  applies its declared default only when the key is absent; a `List[str]`
  field requires a list of strings; an `Optional[int]` field accepts an
  integer or an integral numeric string; extra keys are ignored.  A raised
  `ValidationError` is modelled as `Option.none`.
* `Emotion(x)` / `Priority(x)` / `TaskStatus(x)` raise `ValueError` unless
  `x` is exactly one of the closed-set member values (case-sensitive).
* `str(uuid.uuid4())[:8]` is modelled by an external supply
  `u : Nat → String` of freshly generated canonical UUID strings (36
  characters), one consumed per nurse task (the Python default argument is
  evaluated eagerly for every task); the slice keeps the first 8 characters.
* Elapsed wall-clock seconds are never computed on, only passed through, so
  they are modelled by an abstract `Int` value.
* JSON numbers are modelled as integers (no claim involves fractional
  values) and JSON objects as association lists with distinct keys, as
  produced by `json.loads`; lookup takes the first binding.
-/

namespace MedDoc

/-- Shallow model of a decoded JSON value (the result of `json.loads`). -/
inductive Json where
  | null
  | bool (b : Bool)
  | num (n : Int)
  | str (s : String)
  | arr (elems : List Json)
  | obj (fields : List (String × Json))

/-- First-match association lookup: Python `d.get(k)` on a dict, returning
`None` (here `Option.none`) when the key is absent. -/
def assoc : List (String × Json) → String → Option Json
  | [], _ => none
  | (k, v) :: rest, key => if k = key then some v else assoc rest key

/-- Python truthiness of a JSON value: `None`, `False`, `0`, `""`, `[]` and
`{\x7d` are falsy, everything else truthy. -/
def Json.truthy : Json → Bool
  | .null => false
  | .bool b => b
  | .num n => n != 0
  | .str s => !s.data.isEmpty
  | .arr elems => !elems.isEmpty
  | .obj fields => !fields.isEmpty

/-- Python iteration `for x in v`: lists yield their elements, strings yield
one-character strings, dicts yield their keys; `None`, booleans and numbers
raise `TypeError` (modelled as `none`). -/
def pyIter : Json → Option (List Json)
  | .arr elems => some elems
  | .str s => some (s.data.map (fun c => Json.str ⟨[c]⟩))
  | .obj fields => some (fields.map (fun p => Json.str p.1))
  | _ => none

/-- `Option` sequencing: the value of the Python expression so far, `none`
propagating a raised exception.  (A named wrapper, kept out of code
generation inlining.) -/
@[noinline] def obind (x : Option α) (f : α → Option β) : Option β :=
  match x with
  | none => none
  | some a => f a

/-- Sequence a fallible per-element normalizer over a list, failing as soon
as one element fails — the behaviour of a Python list comprehension whose
body may raise. -/
def optionMapList (f : α → Option β) : List α → Option (List β)
  | [] => some []
  | a :: rest =>
      obind (f a) fun b =>
      obind (optionMapList f rest) fun bs =>
      some (b :: bs)

/-- `Emotion` enum from models.py, lines 22-28. -/
inductive Emotion where
  | happy | sad | angry | neutral | concerned | calm
deriving DecidableEq

/-- `Emotion(x)`: exact case-sensitive match against the member values,
`ValueError` (none) otherwise. -/
def Emotion.ofString? : String → Option Emotion
  | "happy" => some .happy
  | "sad" => some .sad
  | "angry" => some .angry
  | "neutral" => some .neutral
  | "concerned" => some .concerned
  | "calm" => some .calm
  | _ => none

/-- `Priority` enum from models.py, lines 10-13. -/
inductive Priority where
  | HIGH | MEDIUM | LOW
deriving DecidableEq

/-- `Priority(x)`: exact case-sensitive match, `ValueError` otherwise. -/
def Priority.ofString? : String → Option Priority
  | "HIGH" => some .HIGH
  | "MEDIUM" => some .MEDIUM
  | "LOW" => some .LOW
  | _ => none

/-- `TaskStatus` enum from models.py, lines 16-19. -/
inductive TaskStatus where
  | PENDING | IN_PROGRESS | COMPLETED
deriving DecidableEq

/-- `TaskStatus(x)`: exact case-sensitive match, `ValueError` otherwise. -/
def TaskStatus.ofString? : String → Option TaskStatus
  | "PENDING" => some .PENDING
  | "IN_PROGRESS" => some .IN_PROGRESS
  | "COMPLETED" => some .COMPLETED
  | _ => none

/-! Pydantic field validators.  Each takes the looked-up raw value
(`none` = key absent) and returns the validated field value, `none`
signalling a raised `ValidationError` / `ValueError`. -/

/-- A required `str` field whose call site supplies a string default via
`dict.get(k, d)`: absent → the default; a string is kept; `null` or any
non-string raises. -/
def asStrD (v : Option Json) (d : String) : Option String :=
  match v with
  | none => some d
  | some (Json.str s) => some s
  | some _ => none

/-- A required `str` field with no call-site default (pydantic rejects a
missing key, a `null` and any non-string value). -/
def asReqStr (v : Option Json) : Option String :=
  match v with
  | some (Json.str s) => some s
  | _ => none

/-- An `Optional[str]` field with declared default `d`: absent → default,
`null` → `None`, string kept, anything else raises. -/
def asOptStrD (v : Option Json) (d : Option String) : Option (Option String) :=
  match v with
  | none => some d
  | some Json.null => some none
  | some (Json.str s) => some (some s)
  | some _ => none

/-- An `Optional[str]` field with default `None`. -/
def asOptStr (v : Option Json) : Option (Option String) :=
  asOptStrD v none

/-- An `Optional[int]` field: absent or `null` → `None`; an integer is kept;
a numeric string is coerced (pydantic lax mode); anything else raises. -/
def asOptInt (v : Option Json) : Option (Option Int) :=
  match v with
  | none => some none
  | some Json.null => some none
  | some (Json.num n) => some (some n)
  | some (Json.str s) =>
      match s.toInt? with
      | some n => some (some n)
      | none => none
  | some _ => none

/-- A `List[str]` field whose call site supplies `[]` for an absent key:
the value must be a list of strings, else pydantic raises. -/
def asStrListD (v : Option Json) : Option (List String) :=
  match v with
  | none => some []
  | some (Json.arr elems) =>
      optionMapList (fun j => match j with | Json.str s => some s | _ => none) elems
  | some _ => none

/-- A required `List[str]` field (no call-site default): the key must be
present with a list of strings. -/
def asReqStrList (v : Option Json) : Option (List String) :=
  match v with
  | some (Json.arr elems) =>
      optionMapList (fun j => match j with | Json.str s => some s | _ => none) elems
  | _ => none

/-- `emotion=Emotion(seg.get("emotion", "neutral"))`: absent → `neutral`;
a string is matched against the closed set; any other value raises. -/
def parseEmotionField (v : Option Json) : Option Emotion :=
  match v with
  | none => some .neutral
  | some (Json.str s) => Emotion.ofString? s
  | some _ => none

/-- `priority=Priority(task.get("priority", "MEDIUM"))`. -/
def parsePriorityField (v : Option Json) : Option Priority :=
  match v with
  | none => some .MEDIUM
  | some (Json.str s) => Priority.ofString? s
  | some _ => none

/-- `status=TaskStatus(task.get("status", "PENDING"))`. -/
def parseStatusField (v : Option Json) : Option TaskStatus :=
  match v with
  | none => some .PENDING
  | some (Json.str s) => TaskStatus.ofString? s
  | some _ => none

/-! Domain model (models.py). -/

/-- `TranscriptSegment` (models.py, lines 33-41). -/
structure TranscriptSegment where
  speaker : String
  timestamp : String
  content : String
  language : String
  language_code : String
  translation : Option String
  emotion : Emotion
deriving DecidableEq

/-- `Symptom` (models.py, lines 46-51). -/
structure Symptom where
  name : String
  severity : Option String
  duration : Option String
  notes : Option String
deriving DecidableEq

/-- `Diagnosis` (models.py, lines 54-59). -/
structure Diagnosis where
  condition : String
  icd_code : Option String
  confidence : Option String
  notes : Option String
deriving DecidableEq

/-- `Medication` (models.py, lines 62-69); `route` defaults to `"oral"`. -/
structure Medication where
  drug_name : String
  dosage : String
  frequency : String
  route : Option String
  duration : Option String
  instructions : Option String
deriving DecidableEq

/-- `VitalSign` (models.py, lines 72-77). -/
structure VitalSign where
  type : String
  value : String
  time : Option String
  notes : Option String
deriving DecidableEq

/-- `PatientInfo` (models.py, lines 80-86). -/
structure PatientInfo where
  name : Option String
  age : Option String
  gender : Option String
  bed_number : Option String
  admission_date : Option String
deriving DecidableEq

/-- `InsuranceIssue` (models.py, lines 89-94): all four fields required. -/
structure InsuranceIssue where
  severity : String
  rule_violated : String
  missing_evidence : String
  suggestion : String
deriving DecidableEq

/-- `NurseHandover` (models.py, lines 97-101): all three fields required. -/
structure NurseHandover where
  summary_sbar : String
  critical_alerts : List String
  pending_actions : List String
deriving DecidableEq

/-- `PatientSummary` (models.py, lines 104-107): both fields required. -/
structure PatientSummary where
  translated_content : String
  whatsapp_message : String
deriving DecidableEq

/-- `MedicalDocumentation` (models.py, lines 110-124). -/
structure MedicalDocumentation where
  patient_info : PatientInfo
  chief_complaints : List String
  symptoms : List Symptom
  vital_signs : List VitalSign
  diagnoses : List Diagnosis
  medications : List Medication
  procedures : List String
  instructions : List String
  follow_up : Option String
  insurance_audit : List InsuranceIssue
  nurse_handover : Option NurseHandover
  patient_summary : Option PatientSummary
  notes : Option String
deriving DecidableEq

/-- `NurseTask` (models.py, lines 129-140). -/
structure NurseTask where
  task_id : String
  description : String
  priority : Priority
  task_type : String
  due_time : Option String
  due_minutes : Option Int
  patient_identifier : Option String
  medication_details : Option Medication
  status : TaskStatus
  notes : Option String
deriving DecidableEq

/-- `ProcessingResult` (models.py, lines 145-151). -/
structure ProcessingResult where
  summary : String
  transcript_segments : List TranscriptSegment
  documentation : MedicalDocumentation
  nurse_tasks : List NurseTask
  processing_time : Option Int
deriving DecidableEq

/-! Entity constructors by dict splat, `Model(**d)`: the argument must be a
dict (`TypeError` otherwise) and pydantic validates each declared field,
ignoring extra keys. -/

/-- `Symptom(**s)` (gemini_processor.py, line 457). -/
def Symptom.fromDict : Json → Option Symptom
  | .obj fs =>
      obind (asReqStr (assoc fs "name")) fun name =>
      obind (asOptStr (assoc fs "severity")) fun severity =>
      obind (asOptStr (assoc fs "duration")) fun duration =>
      obind (asOptStr (assoc fs "notes")) fun notes =>
      some ⟨name, severity, duration, notes⟩
  | _ => none

/-- `VitalSign(**v)` (gemini_processor.py, line 458). -/
def VitalSign.fromDict : Json → Option VitalSign
  | .obj fs =>
      obind (asReqStr (assoc fs "type")) fun type =>
      obind (asReqStr (assoc fs "value")) fun value =>
      obind (asOptStr (assoc fs "time")) fun time =>
      obind (asOptStr (assoc fs "notes")) fun notes =>
      some ⟨type, value, time, notes⟩
  | _ => none

/-- `Diagnosis(**d)` (gemini_processor.py, line 459). -/
def Diagnosis.fromDict : Json → Option Diagnosis
  | .obj fs =>
      obind (asReqStr (assoc fs "condition")) fun condition =>
      obind (asOptStr (assoc fs "icd_code")) fun icd_code =>
      obind (asOptStr (assoc fs "confidence")) fun confidence =>
      obind (asOptStr (assoc fs "notes")) fun notes =>
      some ⟨condition, icd_code, confidence, notes⟩
  | _ => none

/-- `Medication(**m)` (gemini_processor.py, lines 460 and 483); the `route`
field defaults to `"oral"` only when the key is absent. -/
def Medication.fromDict : Json → Option Medication
  | .obj fs =>
      obind (asReqStr (assoc fs "drug_name")) fun drug_name =>
      obind (asReqStr (assoc fs "dosage")) fun dosage =>
      obind (asReqStr (assoc fs "frequency")) fun frequency =>
      obind (asOptStrD (assoc fs "route") (some "oral")) fun route =>
      obind (asOptStr (assoc fs "duration")) fun duration =>
      obind (asOptStr (assoc fs "instructions")) fun instructions =>
      some ⟨drug_name, dosage, frequency, route, duration, instructions⟩
  | _ => none

/-- `InsuranceIssue(**i)` (gemini_processor.py, line 465). -/
def InsuranceIssue.fromDict : Json → Option InsuranceIssue
  | .obj fs =>
      obind (asReqStr (assoc fs "severity")) fun severity =>
      obind (asReqStr (assoc fs "rule_violated")) fun rule_violated =>
      obind (asReqStr (assoc fs "missing_evidence")) fun missing_evidence =>
      obind (asReqStr (assoc fs "suggestion")) fun suggestion =>
      some ⟨severity, rule_violated, missing_evidence, suggestion⟩
  | _ => none

/-- `NurseHandover(**d)` (gemini_processor.py, line 466). -/
def NurseHandover.fromDict : Json → Option NurseHandover
  | .obj fs =>
      obind (asReqStr (assoc fs "summary_sbar")) fun summary_sbar =>
      obind (asReqStrList (assoc fs "critical_alerts")) fun critical_alerts =>
      obind (asReqStrList (assoc fs "pending_actions")) fun pending_actions =>
      some ⟨summary_sbar, critical_alerts, pending_actions⟩
  | _ => none

/-- `PatientSummary(**d)` (gemini_processor.py, line 467). -/
def PatientSummary.fromDict : Json → Option PatientSummary
  | .obj fs =>
      obind (asReqStr (assoc fs "translated_content")) fun translated_content =>
      obind (asReqStr (assoc fs "whatsapp_message")) fun whatsapp_message =>
      some ⟨translated_content, whatsapp_message⟩
  | _ => none

/-! The mapping layer `_parse_response` (gemini_processor.py, lines 428-494),
split per record exactly along the source's loops. -/

/-- Body of the transcript-segment loop (lines 433-442): each field is read
with `seg.get` and a scalar default; a non-dict element raises. -/
def parseSegment : Json → Option TranscriptSegment
  | .obj fs =>
      obind (asStrD (assoc fs "speaker") "Unknown") fun speaker =>
      obind (asStrD (assoc fs "timestamp") "00:00") fun timestamp =>
      obind (asStrD (assoc fs "content") "") fun content =>
      obind (asStrD (assoc fs "language") "Unknown") fun language =>
      obind (asStrD (assoc fs "language_code") "un") fun language_code =>
      obind (asOptStr (assoc fs "translation")) fun translation =>
      obind (parseEmotionField (assoc fs "emotion")) fun emotion =>
      some ⟨speaker, timestamp, content, language, language_code, translation, emotion⟩
  | _ => none

/-- The transcript-segment loop over the iterated raw value. -/
def parseSegments : List Json → Option (List TranscriptSegment) :=
  optionMapList parseSegment

/-- `PatientInfo(...)` built from `patient_info_data.get(...)` (lines
449-455); a non-dict `patient_info` value raises on `.get`. -/
def parsePatientInfo : Json → Option PatientInfo
  | .obj fs =>
      obind (asOptStr (assoc fs "name")) fun name =>
      obind (asOptStr (assoc fs "age")) fun age =>
      obind (asOptStr (assoc fs "gender")) fun gender =>
      obind (asOptStr (assoc fs "bed_number")) fun bed_number =>
      obind (asOptStr (assoc fs "admission_date")) fun admission_date =>
      some ⟨name, age, gender, bed_number, admission_date⟩
  | _ => none

/-- `NurseHandover(**raw) if doc_data.get("nurse_handover") else None`
(line 466), and the analogous `patient_summary` / `medication_details`
conditionals: an absent key or a falsy value yields `None`; a truthy value
is passed to the entity constructor. -/
def parseIfTruthy (fromDict : Json → Option α) (v : Option Json) : Option (Option α) :=
  match v with
  | none => some none
  | some j => if j.truthy then (fromDict j).map some else some none

/-- `MedicalDocumentation(...)` construction (lines 445-469) from
`doc_data = result_data.get("documentation", {\x7d)`; `.get` on a non-dict
raises.  `nurse_handover` and `patient_summary` are built only when the raw
value is truthy (lines 466-467). -/
def parseDocumentation : Json → Option MedicalDocumentation
  | .obj fs =>
      obind (parsePatientInfo ((assoc fs "patient_info").getD (.obj []))) fun patient_info =>
      obind (asStrListD (assoc fs "chief_complaints")) fun chief_complaints =>
      obind (pyIter ((assoc fs "symptoms").getD (.arr []))) fun symptomsJs =>
      obind (optionMapList Symptom.fromDict symptomsJs) fun symptoms =>
      obind (pyIter ((assoc fs "vital_signs").getD (.arr []))) fun vitalsJs =>
      obind (optionMapList VitalSign.fromDict vitalsJs) fun vital_signs =>
      obind (pyIter ((assoc fs "diagnoses").getD (.arr []))) fun diagJs =>
      obind (optionMapList Diagnosis.fromDict diagJs) fun diagnoses =>
      obind (pyIter ((assoc fs "medications").getD (.arr []))) fun medsJs =>
      obind (optionMapList Medication.fromDict medsJs) fun medications =>
      obind (asStrListD (assoc fs "procedures")) fun procedures =>
      obind (asStrListD (assoc fs "instructions")) fun instructions =>
      obind (asOptStr (assoc fs "follow_up")) fun follow_up =>
      obind (pyIter ((assoc fs "insurance_audit").getD (.arr []))) fun auditJs =>
      obind (optionMapList InsuranceIssue.fromDict auditJs) fun insurance_audit =>
      obind (parseIfTruthy NurseHandover.fromDict (assoc fs "nurse_handover")) fun nurse_handover =>
      obind (parseIfTruthy PatientSummary.fromDict (assoc fs "patient_summary")) fun patient_summary =>
      obind (asOptStr (assoc fs "notes")) fun notes =>
      some ⟨patient_info, chief_complaints, symptoms, vital_signs, diagnoses,
            medications, procedures, instructions, follow_up, insurance_audit,
            nurse_handover, patient_summary, notes⟩
  | _ => none

/-- `task_id=task.get("task_id", str(uuid.uuid4())[:8])`: the first 8
characters of the fresh UUID string when the key is absent; a present value
must be a string (pydantic `str` field). -/
def parseTaskId (uuidStr : String) (v : Option Json) : Option String :=
  match v with
  | none => some (⟨uuidStr.data.take 8⟩ : String)
  | some (Json.str s) => some s
  | some _ => none

/-- Body of the nurse-task loop (lines 473-486).  `uuidStr` is the freshly
generated UUID string consumed by this iteration; its first 8 characters
become the task id only when the raw `task_id` key is absent.
`medication_details` is built only when the raw value is truthy. -/
def parseTask (uuidStr : String) : Json → Option NurseTask
  | .obj fs =>
      obind (parseIfTruthy Medication.fromDict (assoc fs "medication_details")) fun medication_details =>
      obind (parseTaskId uuidStr (assoc fs "task_id")) fun task_id =>
      obind (asStrD (assoc fs "description") "") fun description =>
      obind (parsePriorityField (assoc fs "priority")) fun priority =>
      obind (asStrD (assoc fs "task_type") "other") fun task_type =>
      obind (asOptStr (assoc fs "due_time")) fun due_time =>
      obind (asOptInt (assoc fs "due_minutes")) fun due_minutes =>
      obind (asOptStr (assoc fs "patient_identifier")) fun patient_identifier =>
      obind (parseStatusField (assoc fs "status")) fun status =>
      obind (asOptStr (assoc fs "notes")) fun notes =>
      some ⟨task_id, description, priority, task_type, due_time, due_minutes,
            patient_identifier, medication_details, status, notes⟩
  | _ => none

/-- The nurse-task loop: task `i` consumes `u i` (the default argument
`str(uuid.uuid4())[:8]` is evaluated once per iteration). -/
def parseTasks (u : Nat → String) : Nat → List Json → Option (List NurseTask)
  | _, [] => some []
  | i, j :: rest =>
      obind (parseTask (u i) j) fun t =>
      obind (parseTasks u (i + 1) rest) fun ts =>
      some (t :: ts)

/-- `_parse_response(result_data, processing_time)` (lines 428-494).
`raw` is the decoded JSON, `t` the elapsed seconds, `u` the UUID supply.
`none` models a raised exception. -/
def parseResponse (raw : Json) (t : Int) (u : Nat → String) : Option ProcessingResult :=
  match raw with
  | .obj fs =>
      obind (pyIter ((assoc fs "transcript_segments").getD (.arr []))) fun segJs =>
      obind (parseSegments segJs) fun segments =>
      obind (parseDocumentation ((assoc fs "documentation").getD (.obj []))) fun documentation =>
      obind (pyIter ((assoc fs "nurse_tasks").getD (.arr []))) fun taskJs =>
      obind (parseTasks u 0 taskJs) fun nurse_tasks =>
      obind (asStrD (assoc fs "summary") "") fun summary =>
      some ⟨summary, segments, documentation, nurse_tasks, some t⟩
  | _ => none

/-! Upload validation in `process_audio` (main.py, lines 140-161). -/

/-- `allowed_types` (main.py, lines 141-151): content type → canonical file
extension. -/
def allowedTypes : List (String × String) :=
  [("audio/mpeg", "mp3"), ("audio/mp3", "mp3"), ("audio/wav", "wav"),
   ("audio/x-wav", "wav"), ("audio/webm", "webm"), ("audio/ogg", "ogg"),
   ("audio/mp4", "m4a"), ("audio/x-m4a", "m4a"), ("video/webm", "webm")]

/-- `pathlib.Path(name).suffix`: on the final path component (trailing
slashes are ignored, as pathlib drops them when parsing), the substring
from the last dot, provided that dot is neither the first nor the last
character of the component; empty otherwise. -/
def pySuffix (name : String) : String :=
  let comp :=
    (((name.data.reverse.dropWhile (fun c => c = '/')).takeWhile
        (fun c => c ≠ '/')).reverse : List Char)
  match comp.reverse.findIdx? (fun c => c = '.') with
  | none => ""
  | some rj =>
      let i := comp.length - 1 - rj
      if 0 < i ∧ i < comp.length - 1 then (⟨comp.drop i⟩ : String) else ""

/-- `Path(file.filename or "").suffix.lower().lstrip(".")` (main.py, line
156): `filename` may be missing or empty (Python `or` treats both alike);
`lstrip(".")` drops every leading dot. -/
def extOf (filename : Option String) : String :=
  let name := match filename with
    | none => ""
    | some s => s
  let suf := pySuffix name
  (⟨(suf.data.map Char.toLower).dropWhile (fun c => c = '.')⟩ : String)

/-- The recognized-extension fallback list (main.py, line 157). -/
def extAllowList : List String := ["mp3", "wav", "webm", "ogg", "m4a"]

/-- `content_type = file.content_type or "audio/mpeg"` (main.py, line 153):
a missing or empty header falls back to `"audio/mpeg"`. -/
def effectiveContentType (contentType : Option String) : String :=
  match contentType with
  | none => "audio/mpeg"
  | some s => if s.data.isEmpty then "audio/mpeg" else s

/-- Whether `process_audio` raises the `400 Unsupported audio format` error
(main.py, lines 153-161). -/
def processAudioRejects (contentType : Option String) (filename : Option String) : Bool :=
  let ct := effectiveContentType contentType
  if allowedTypes.any (fun p => p.1 == ct) then false
  else !(extAllowList.any (fun e => e == extOf filename))

/-! Orchestration (gemini_processor.py, lines 322-425).  The external
collaborator (upload, state polling, content generation, artifact deletion)
is abstracted by an environment; wall-clock timing by an abstract elapsed
value. -/

/-- State of the remote uploaded file as reported by the collaborator. -/
inductive FState where
  | processing | failed | active
deriving DecidableEq

/-- External behaviour visible to one `process_audio_file` call.
`states k` is the remote file state observed at the k-th poll (`states 0`
right after the upload); `genOk` is whether `generate_content` returns;
`decoded` is `json.loads(response.text)` (`none` = undecodable text, which
raises); `deleteOk` is whether `files.delete` succeeds; `elapsed` the
measured wall-clock seconds; `uuids` the UUID supply. -/
structure AudioEnv where
  states : Nat → FState
  genOk : Bool
  decoded : Option Json
  deleteOk : Bool
  elapsed : Int
  uuids : Nat → String

/-- The `while uploaded_file.state.name == "PROCESSING"` poll loop (lines
388-390), bounded by `fuel` observations; `none` means the loop is still
running after `fuel` polls (the source imposes no bound). -/
def pollLoop (st : Nat → FState) (k : Nat) : Nat → Option FState
  | 0 => if st k = FState.processing then none else some (st k)
  | fuel + 1 =>
      if st k = FState.processing then pollLoop st (k + 1) fuel else some (st k)

/-- `process_audio_file` (lines 364-425) after the upload call: poll until
the state leaves PROCESSING; a FAILED state raises; then `generate_content`
(a raised transport error propagates); then `files.delete` inside
`try/except: pass` (its outcome is discarded); then `json.loads` and
`_parse_response`.  The outer `Option` is `none` while the poll loop has
not terminated; the `Bool` records whether deletion of the remote artifact
was attempted; the inner `Option ProcessingResult` is `none` when an
exception propagates to the caller. -/
def processAudioFile (env : AudioEnv) (fuel : Nat) : Option (Bool × Option ProcessingResult) :=
  match pollLoop env.states 0 fuel with
  | none => none
  | some st =>
      if st = FState.failed then some (false, none)
      else if env.genOk then
        let _deleted : Bool := env.deleteOk
        match env.decoded with
        | none => some (true, none)
        | some j => some (true, parseResponse j env.elapsed env.uuids)
      else some (false, none)

/-- External behaviour visible to one `process_youtube_url` call. -/
structure UrlEnv where
  genOk : Bool
  decoded : Option Json
  elapsed : Int
  uuids : Nat → String

/-- `process_youtube_url` (lines 322-361): `generate_content`, `json.loads`,
`_parse_response`; `none` models a raised exception. -/
def processYoutubeUrl (env : UrlEnv) : Option ProcessingResult :=
  if env.genOk then
    match env.decoded with
    | none => none
    | some j => parseResponse j env.elapsed env.uuids
  else none

/-! Derived views of the raw input, used to state properties of
`parseResponse` in terms of the original JSON. -/

/-- The effective `doc_data` value: `result_data.get("documentation", {\x7d)`. -/
def docRaw (raw : Json) : Json :=
  match raw with
  | .obj fs => (assoc fs "documentation").getD (.obj [])
  | _ => .null

/-- The raw `nurse_handover` value inside `doc_data`, when `doc_data` is a
dict. -/
def handoverRaw (raw : Json) : Option Json :=
  match docRaw raw with
  | .obj dfs => assoc dfs "nurse_handover"
  | _ => none

/-- The raw `patient_summary` value inside `doc_data`. -/
def patientSummaryRaw (raw : Json) : Option Json :=
  match docRaw raw with
  | .obj dfs => assoc dfs "patient_summary"
  | _ => none

/-- The iterated raw `medications` elements inside `doc_data`. -/
def medicationsRaw (raw : Json) : List Json :=
  match docRaw raw with
  | .obj dfs => (pyIter ((assoc dfs "medications").getD (.arr []))).getD []
  | _ => []

/-- The iterated raw `nurse_tasks` elements. -/
def nurseTasksRaw (raw : Json) : List Json :=
  match raw with
  | .obj fs => (pyIter ((assoc fs "nurse_tasks").getD (.arr []))).getD []
  | _ => []

/-- The iterated raw `transcript_segments` elements. -/
def segmentsRaw (raw : Json) : List Json :=
  match raw with
  | .obj fs => (pyIter ((assoc fs "transcript_segments").getD (.arr []))).getD []
  | _ => []

/-- Blank out a task's identifier (used to compare two parses up to
task-id synthesis). -/
def scrubTask (a : NurseTask) : NurseTask :=
  { a with task_id := "" }

/-- Blank out every task identifier in a result. -/
def scrubIds (r : ProcessingResult) : ProcessingResult :=
  { r with nurse_tasks := r.nurse_tasks.map scrubTask }

/-! Canonical fully-defaulted values produced by the mapping layer. -/

/-- `PatientInfo` with every field absent. -/
def emptyPatientInfo : PatientInfo := ⟨none, none, none, none, none⟩

/-- The documentation produced from an absent or empty `documentation`
object. -/
def emptyDoc : MedicalDocumentation :=
  ⟨emptyPatientInfo, [], [], [], [], [], [], [], none, [], none, none, none⟩

/-- The segment produced from an empty raw segment dict. -/
def defaultSeg : TranscriptSegment :=
  ⟨"Unknown", "00:00", "", "Unknown", "un", none, .neutral⟩

/-- The task produced from an empty raw task dict, given its synthesized
identifier. -/
def defaultTask (tid : String) : NurseTask :=
  ⟨tid, "", .MEDIUM, "other", none, none, none, none, .PENDING, none⟩

/-! Concrete raw inputs and environments used by closed counterexample and
witness theorems. -/

/-- A canonical fresh-UUID supply. -/
def uuidA : Nat → String := fun _ => "aaaaaaaa-1111-4111-8111-111111111111"

/-- A second fresh-UUID supply, distinct from `uuidA`. -/
def uuidB : Nat → String := fun _ => "bbbbbbbb-2222-4222-8222-222222222222"

/-- A top-level object whose only anomaly is one symptom entry missing its
required `name` field. -/
def cexSymptomRaw : Json :=
  .obj [("documentation", .obj [("symptoms", .arr [.obj []])])]

/-- A single transcript segment whose `emotion` field is the string `s`. -/
def segRawE (s : String) : Json :=
  .obj [("transcript_segments", .arr [.obj [("emotion", .str s)]])]

/-- A single transcript segment with no fields at all. -/
def segRaw0 : Json :=
  .obj [("transcript_segments", .arr [.obj []])]

/-- The result of normalizing one segment whose only explicit field is its
emotion. -/
def segResE (e : Emotion) (t : Int) : ProcessingResult :=
  ⟨"", [⟨"Unknown", "00:00", "", "Unknown", "un", none, e⟩], emptyDoc, [], some t⟩

/-- A single nurse task with explicit id `"T1"` and `priority` string `s`. -/
def taskRawP (s : String) : Json :=
  .obj [("nurse_tasks", .arr [.obj [("task_id", .str "T1"), ("priority", .str s)]])]

/-- A single nurse task with explicit id `"T1"` and `status` string `s`. -/
def taskRawS (s : String) : Json :=
  .obj [("nurse_tasks", .arr [.obj [("task_id", .str "T1"), ("status", .str s)]])]

/-- A single nurse task with explicit id `"T1"` and nothing else. -/
def taskRaw0 : Json :=
  .obj [("nurse_tasks", .arr [.obj [("task_id", .str "T1")]])]

/-- The result of normalizing one otherwise-empty task with id `"T1"`. -/
def taskResP (p : Priority) (st : TaskStatus) (t : Int) : ProcessingResult :=
  ⟨"", [], emptyDoc, [⟨"T1", "", p, "other", none, none, none, none, st, none⟩], some t⟩

/-- Two tasks carrying the same explicit `task_id` plus one task omitting
it. -/
def cexDupTasksRaw : Json :=
  .obj [("nurse_tasks", .arr [.obj [("task_id", .str "dup")],
                              .obj [("task_id", .str "dup")], .obj []])]

/-- One task omitting `task_id`. -/
def oneTaskRaw : Json := .obj [("nurse_tasks", .arr [.obj []])]

/-- A fully-populated `nurse_handover` and `patient_summary`. -/
def handoverOkRaw : Json :=
  .obj [("documentation", .obj
    [("nurse_handover", .obj
      [("summary_sbar", .str "S"), ("critical_alerts", .arr [.str "a"]),
       ("pending_actions", .arr [])]),
     ("patient_summary", .obj
      [("translated_content", .str "tc"), ("whatsapp_message", .str "wm")])])]

/-- `nurse_handover` and `patient_summary` both present as empty objects. -/
def emptyHandoverRaw : Json :=
  .obj [("documentation", .obj
    [("nurse_handover", .obj []), ("patient_summary", .obj [])])]

/-- One documentation medication omitting `route`, plus one task embedding a
medication omitting `route`. -/
def medNoRouteRaw : Json :=
  .obj [("documentation", .obj
          [("medications", .arr [.obj [("drug_name", .str "paracetamol"),
                                       ("dosage", .str "500mg"),
                                       ("frequency", .str "bd")]])]),
        ("nurse_tasks", .arr [.obj
          [("task_id", .str "T1"),
           ("medication_details", .obj [("drug_name", .str "ORS"),
                                        ("dosage", .str "1 sachet"),
                                        ("frequency", .str "tds")])]])]

/-- Two tasks, the first with an explicit id, the second omitting it. -/
def mixedTasksRaw : Json :=
  .obj [("nurse_tasks", .arr [.obj [("task_id", .str "keep")], .obj []])]

/-- Remote processing reports FAILED immediately. -/
def envFailed : AudioEnv :=
  ⟨fun _ => .failed, true, some (.obj []), true, 0, uuidA⟩

/-- Remote processing succeeds after one PROCESSING poll. -/
def envOk : AudioEnv :=
  ⟨fun k => if k = 0 then .processing else .active, true, some (.obj []), false, 7, uuidA⟩

/-- A URL-path environment that succeeds. -/
def envUrlOk : UrlEnv := ⟨true, some (.obj []), 9, uuidA⟩

/-- The result of normalizing an empty top-level object. -/
def emptyResult (t : Int) : ProcessingResult := ⟨"", [], emptyDoc, [], some t⟩

/-- The documentation part of `resHandoverOk`. -/
def docHandoverOk : MedicalDocumentation :=
  ⟨emptyPatientInfo, [], [], [], [], [], [], [], none, [],
   some ⟨"S", ["a"], []⟩, some ⟨"tc", "wm"⟩, none⟩

/-- The result of normalizing `handoverOkRaw`. -/
def resHandoverOk : ProcessingResult :=
  ⟨"", [], docHandoverOk, [], some 0⟩

/-- The result of normalizing `oneTaskRaw` under the supply `uuidA`. -/
def resOneTask : ProcessingResult :=
  ⟨"", [], emptyDoc, [defaultTask "aaaaaaaa"], some 0⟩

/-- The result of normalizing `mixedTasksRaw` under `uuidA`. -/
def resMixedA : ProcessingResult :=
  ⟨"", [], emptyDoc, [defaultTask "keep", defaultTask "aaaaaaaa"], some 0⟩

/-- The result of normalizing `mixedTasksRaw` under `uuidB`. -/
def resMixedB : ProcessingResult :=
  ⟨"", [], emptyDoc, [defaultTask "keep", defaultTask "bbbbbbbb"], some 0⟩

/-- The documentation part of `resMedNoRoute`. -/
def docMedNoRoute : MedicalDocumentation :=
  ⟨emptyPatientInfo, [], [], [], [],
   [⟨"paracetamol", "500mg", "bd", some "oral", none, none⟩],
   [], [], none, [], none, none, none⟩

/-- The result of normalizing `medNoRouteRaw`. -/
def resMedNoRoute : ProcessingResult :=
  ⟨"", [], docMedNoRoute,
   [⟨"T1", "", .MEDIUM, "other", none, none, none,
     some ⟨"ORS", "1 sachet", "tds", some "oral", none, none⟩, .PENDING, none⟩],
   some 0⟩

/-! Helper lemmas. -/

@[simp] theorem obind_none (f : α → Option β) : obind none f = none := rfl

@[simp] theorem obind_some (a : α) (f : α → Option β) : obind (some a) f = f a := rfl

@[simp] theorem obind_eq_some {x : Option α} {f : α → Option β} {b : β} :
    obind x f = some b ↔ ∃ a, x = some a ∧ f a = some b := by
  cases x <;> simp [obind]

theorem obind_eq_none {x : Option α} {f : α → Option β} :
    obind x f = none ↔ x = none ∨ ∃ a, x = some a ∧ f a = none := by
  cases x <;> simp [obind]

@[simp] theorem asReqStr_eq_some {v : Option Json} {s : String} :
    asReqStr v = some s ↔ v = some (.str s) := by
  rcases v with _ | j
  · simp [asReqStr]
  · cases j <;> simp [asReqStr]

theorem asReqStrList_str {elems : List Json} {l : List String} :
    optionMapList (fun j => match j with | Json.str s => some s | _ => none) elems
      = some l → elems = l.map Json.str := by
  induction elems generalizing l with
  | nil => intro h; simp [optionMapList] at h; simp [← h]
  | cons j rest ih =>
      intro h
      simp only [optionMapList, obind_eq_some, Option.some.injEq] at h
      obtain ⟨s, hs, bs, hbs, hcons⟩ := h
      cases j <;> simp at hs
      subst hs
      subst hcons
      simp [ih hbs]

theorem asReqStrList_eq_some {v : Option Json} {l : List String} :
    asReqStrList v = some l → v = some (.arr (l.map Json.str)) := by
  rcases v with _ | j
  · simp [asReqStrList]
  · cases j <;> simp [asReqStrList]
    intro h
    exact (asReqStrList_str h).symm ▸ rfl

theorem optionMapList_get {f : α → Option β} {l : List α} {r : List β} :
    optionMapList f l = some r → ∀ k a, l.get? k = some a →
      ∃ b, f a = some b ∧ r.get? k = some b := by
  induction l generalizing r with
  | nil => intro _ k a h; simp at h
  | cons x rest ih =>
      intro h k a hka
      simp only [optionMapList, obind_eq_some, Option.some.injEq] at h
      obtain ⟨b, hb, bs, hbs, hcons⟩ := h
      subst hcons
      cases k with
      | zero => simp at hka; subst hka; exact ⟨b, hb, rfl⟩
      | succ k => exact ih hbs k a hka

theorem optionMapList_length {f : α → Option β} {l : List α} {r : List β} :
    optionMapList f l = some r → r.length = l.length := by
  induction l generalizing r with
  | nil => intro h; simp [optionMapList] at h; simp [← h]
  | cons x rest ih =>
      intro h
      simp only [optionMapList, obind_eq_some, Option.some.injEq] at h
      obtain ⟨b, _, bs, hbs, hcons⟩ := h
      subst hcons
      simp [ih hbs]

theorem parseTasks_get {u : Nat → String} {js : List Json} {l : List NurseTask} :
    ∀ {i}, parseTasks u i js = some l → ∀ k j, js.get? k = some j →
      ∃ a, parseTask (u (i + k)) j = some a ∧ l.get? k = some a := by
  induction js generalizing l with
  | nil => intro i _ k j h; simp at h
  | cons x rest ih =>
      intro i h k j hkj
      simp only [parseTasks, obind_eq_some, Option.some.injEq] at h
      obtain ⟨a, ha, ts, hts, hcons⟩ := h
      subst hcons
      cases k with
      | zero => simp at hkj; subst hkj; exact ⟨a, by simpa using ha, rfl⟩
      | succ k =>
          obtain ⟨b, hb, hget⟩ := ih hts k j hkj
          refine ⟨b, ?_, hget⟩
          have : i + 1 + k = i + (k + 1) := by omega
          rwa [this] at hb

theorem parseResponse_eq_some {raw : Json} {t : Int} {u : Nat → String}
    {r : ProcessingResult} (h : parseResponse raw t u = some r) :
    ∃ fs segJs segments documentation taskJs nurse_tasks summary,
      raw = Json.obj fs ∧
      pyIter ((assoc fs "transcript_segments").getD (.arr [])) = some segJs ∧
      parseSegments segJs = some segments ∧
      parseDocumentation ((assoc fs "documentation").getD (.obj [])) = some documentation ∧
      pyIter ((assoc fs "nurse_tasks").getD (.arr [])) = some taskJs ∧
      parseTasks u 0 taskJs = some nurse_tasks ∧
      asStrD (assoc fs "summary") "" = some summary ∧
      r = ⟨summary, segments, documentation, nurse_tasks, some t⟩ := by
  cases raw with
  | obj fs =>
      simp only [parseResponse, obind_eq_some, Option.some.injEq] at h
      obtain ⟨segJs, h1, segments, h2, documentation, h3, taskJs, h4,
              nurse_tasks, h5, summary, h6, h7⟩ := h
      exact ⟨fs, segJs, segments, documentation, taskJs, nurse_tasks, summary,
             rfl, h1, h2, h3, h4, h5, h6, h7.symm⟩
  | null => simp [parseResponse] at h
  | bool b => simp [parseResponse] at h
  | num n => simp [parseResponse] at h
  | str s => simp [parseResponse] at h
  | arr elems => simp [parseResponse] at h

theorem parseIfTruthy_eq_some_some {f : Json → Option α} {v : Option Json} {a : α} :
    parseIfTruthy f v = some (some a) →
      ∃ jv, v = some jv ∧ jv.truthy = true ∧ f jv = some a := by
  rcases v with _ | jv
  · simp [parseIfTruthy]
  · simp only [parseIfTruthy]
    by_cases hjv : jv.truthy
    · simp only [hjv, if_true, Option.map_eq_some']
      rintro ⟨b, hb, hba⟩
      cases hba
      exact ⟨jv, rfl, hjv, hb⟩
    · simp [hjv]

theorem nurseHandover_fromDict_shape {j : Json} {h : NurseHandover} :
    NurseHandover.fromDict j = some h →
      ∃ hfs, j = Json.obj hfs ∧
        assoc hfs "summary_sbar" = some (Json.str h.summary_sbar) ∧
        assoc hfs "critical_alerts" = some (Json.arr (h.critical_alerts.map Json.str)) ∧
        assoc hfs "pending_actions" = some (Json.arr (h.pending_actions.map Json.str)) := by
  cases j <;> simp only [NurseHandover.fromDict] <;> intro hh
  case obj hfs =>
    simp only [obind_eq_some, Option.some.injEq, asReqStr_eq_some] at hh
    obtain ⟨s, hs, ca, hca, pa, hpa, heq⟩ := hh
    subst heq
    exact ⟨hfs, rfl, hs, asReqStrList_eq_some hca, asReqStrList_eq_some hpa⟩
  all_goals cases hh

theorem patientSummary_fromDict_shape {j : Json} {p : PatientSummary} :
    PatientSummary.fromDict j = some p →
      ∃ pfs, j = Json.obj pfs ∧
        assoc pfs "translated_content" = some (Json.str p.translated_content) ∧
        assoc pfs "whatsapp_message" = some (Json.str p.whatsapp_message) := by
  cases j <;> simp only [PatientSummary.fromDict] <;> intro hh
  case obj pfs =>
    simp only [obind_eq_some, Option.some.injEq, asReqStr_eq_some] at hh
    obtain ⟨tc, htc, wm, hwm, heq⟩ := hh
    subst heq
    exact ⟨pfs, rfl, htc, hwm⟩
  all_goals cases hh

theorem medication_fromDict_shape {j : Json} {m : Medication} :
    Medication.fromDict j = some m →
      ∃ mfs, j = Json.obj mfs ∧
        assoc mfs "drug_name" = some (Json.str m.drug_name) ∧
        assoc mfs "dosage" = some (Json.str m.dosage) ∧
        assoc mfs "frequency" = some (Json.str m.frequency) ∧
        asOptStrD (assoc mfs "route") (some "oral") = some m.route := by
  cases j <;> simp only [Medication.fromDict] <;> intro hh
  case obj mfs =>
    simp only [obind_eq_some, Option.some.injEq, asReqStr_eq_some] at hh
    obtain ⟨dn, hdn, ds, hds, fq, hfq, rt, hrt, du, hdu, ins, hins, heq⟩ := hh
    subst heq
    exact ⟨mfs, rfl, hdn, hds, hfq, hrt⟩
  all_goals cases hh

theorem insuranceIssue_fromDict_shape {j : Json} {iss : InsuranceIssue} :
    InsuranceIssue.fromDict j = some iss →
      ∃ ifs, j = Json.obj ifs ∧
        assoc ifs "severity" = some (Json.str iss.severity) ∧
        assoc ifs "rule_violated" = some (Json.str iss.rule_violated) ∧
        assoc ifs "missing_evidence" = some (Json.str iss.missing_evidence) ∧
        assoc ifs "suggestion" = some (Json.str iss.suggestion) := by
  cases j <;> simp only [InsuranceIssue.fromDict] <;> intro hh
  case obj ifs =>
    simp only [obind_eq_some, Option.some.injEq, asReqStr_eq_some] at hh
    obtain ⟨sv, hsv, rv, hrv, me, hme, sg, hsg, heq⟩ := hh
    subst heq
    exact ⟨ifs, rfl, hsv, hrv, hme, hsg⟩
  all_goals cases hh

theorem medication_fromDict_route {mfs : List (String × Json)} {m : Medication}
    (h : Medication.fromDict (Json.obj mfs) = some m)
    (hr : assoc mfs "route" = none) : m.route = some "oral" := by
  obtain ⟨mfs', heq, _, _, _, hrt⟩ := medication_fromDict_shape h
  cases heq
  rw [hr] at hrt
  simp [asOptStrD] at hrt
  exact hrt.symm

theorem parseDocumentation_eq_some {d : Json} {doc : MedicalDocumentation}
    (h : parseDocumentation d = some doc) :
    ∃ dfs, d = Json.obj dfs ∧
      parseIfTruthy NurseHandover.fromDict (assoc dfs "nurse_handover")
        = some doc.nurse_handover ∧
      parseIfTruthy PatientSummary.fromDict (assoc dfs "patient_summary")
        = some doc.patient_summary ∧
      ∃ medsJs, pyIter ((assoc dfs "medications").getD (.arr [])) = some medsJs ∧
        optionMapList Medication.fromDict medsJs = some doc.medications := by
  cases d with
  | obj dfs =>
      simp only [parseDocumentation, obind_eq_some, Option.some.injEq] at h
      obtain ⟨pin, h1, cc, h2, syJ, h3, sy, h4, viJ, h5, vi, h6, diJ, h7, di, h8,
              meJ, h9, me, h10, pr, h11, ins, h12, fu, h13, auJ, h14, au, h15,
              nh, h16, ps, h17, no, h18, heq⟩ := h
      subst heq
      exact ⟨dfs, rfl, h16, h17, meJ, h9, h10⟩
  | null => simp [parseDocumentation] at h
  | bool b => simp [parseDocumentation] at h
  | num n => simp [parseDocumentation] at h
  | str s => simp [parseDocumentation] at h
  | arr elems => simp [parseDocumentation] at h

theorem parseTask_eq_some {s : String} {j : Json} {a : NurseTask}
    (h : parseTask s j = some a) :
    ∃ tfs, j = Json.obj tfs ∧
      parseIfTruthy Medication.fromDict (assoc tfs "medication_details")
        = some a.medication_details ∧
      parseTaskId s (assoc tfs "task_id") = some a.task_id ∧
      parsePriorityField (assoc tfs "priority") = some a.priority ∧
      parseStatusField (assoc tfs "status") = some a.status := by
  cases j with
  | obj tfs =>
      simp only [parseTask, obind_eq_some, Option.some.injEq] at h
      obtain ⟨md, h1, tid, h2, de, h3, pr, h4, tt, h5, dt, h6, dm, h7,
              pi, h8, st, h9, no, h10, heq⟩ := h
      subst heq
      exact ⟨tfs, rfl, h1, h2, h4, h9⟩
  | null => simp [parseTask] at h
  | bool b => simp [parseTask] at h
  | num n => simp [parseTask] at h
  | str s => simp [parseTask] at h
  | arr elems => simp [parseTask] at h

theorem parseSegment_eq_some {j : Json} {seg : TranscriptSegment}
    (h : parseSegment j = some seg) :
    ∃ sfs, j = Json.obj sfs ∧
      parseEmotionField (assoc sfs "emotion") = some seg.emotion := by
  cases j with
  | obj sfs =>
      simp only [parseSegment, obind_eq_some, Option.some.injEq] at h
      obtain ⟨sp, h1, ts, h2, co, h3, la, h4, lc, h5, tr, h6, em, h7, heq⟩ := h
      subst heq
      exact ⟨sfs, rfl, h7⟩
  | null => simp [parseSegment] at h
  | bool b => simp [parseSegment] at h
  | num n => simp [parseSegment] at h
  | str s => simp [parseSegment] at h
  | arr elems => simp [parseSegment] at h

theorem parseSegment_empty : parseSegment (Json.obj []) = some defaultSeg := rfl

theorem parseSegments_replicate (n : Nat) :
    parseSegments (List.replicate n (Json.obj [])) = some (List.replicate n defaultSeg) := by
  induction n with
  | zero => rfl
  | succ n ih =>
      simp only [List.replicate_succ, parseSegments, optionMapList, parseSegment_empty,
                 obind_some]
      rw [show optionMapList parseSegment (List.replicate n (Json.obj []))
            = parseSegments (List.replicate n (Json.obj [])) from rfl, ih]
      rfl

theorem parseTask_empty (s : String) :
    parseTask s (Json.obj []) = some (defaultTask (⟨s.data.take 8⟩ : String)) := rfl

theorem parseTasks_replicate (u : Nat → String) (m : Nat) :
    ∀ i, parseTasks u i (List.replicate m (Json.obj []))
      = some ((List.range m).map (fun k => defaultTask (⟨(u (i + k)).data.take 8⟩ : String))) := by
  induction m with
  | zero => intro i; rfl
  | succ m ih =>
      intro i
      rw [List.replicate_succ]
      simp only [parseTasks, parseTask_empty, obind_some, ih (i + 1)]
      rw [List.range_succ_eq_map]
      simp only [List.map_cons, List.map_map, Function.comp, Nat.add_zero]
      have harith : ∀ k, i + 1 + k = i + (k + 1) := fun k => by omega
      simp [harith]

theorem parseSegment_emotionStr (s : String) :
    parseSegment (Json.obj [("emotion", Json.str s)])
      = (Emotion.ofString? s).map
          (fun e => ⟨"Unknown", "00:00", "", "Unknown", "un", none, e⟩) := by
  have a1 : assoc [("emotion", Json.str s)] "speaker" = none := rfl
  have a2 : assoc [("emotion", Json.str s)] "timestamp" = none := rfl
  have a3 : assoc [("emotion", Json.str s)] "content" = none := rfl
  have a4 : assoc [("emotion", Json.str s)] "language" = none := rfl
  have a5 : assoc [("emotion", Json.str s)] "language_code" = none := rfl
  have a6 : assoc [("emotion", Json.str s)] "translation" = none := rfl
  have a7 : assoc [("emotion", Json.str s)] "emotion" = some (Json.str s) := rfl
  simp only [parseSegment, a1, a2, a3, a4, a5, a6, a7, asStrD, asOptStr, asOptStrD,
             parseEmotionField, obind_some]
  cases he : Emotion.ofString? s <;> simp [he]

theorem parseResponse_segE (s : String) (t : Int) (u : Nat → String) :
    parseResponse (segRawE s) t u = (Emotion.ofString? s).map (fun e => segResE e t) := by
  have e1 : assoc [("transcript_segments", Json.arr [Json.obj [("emotion", Json.str s)]])]
              "transcript_segments"
              = some (Json.arr [Json.obj [("emotion", Json.str s)]]) := rfl
  have e2 : assoc [("transcript_segments", Json.arr [Json.obj [("emotion", Json.str s)]])]
              "documentation" = none := rfl
  have e3 : assoc [("transcript_segments", Json.arr [Json.obj [("emotion", Json.str s)]])]
              "nurse_tasks" = none := rfl
  have e4 : assoc [("transcript_segments", Json.arr [Json.obj [("emotion", Json.str s)]])]
              "summary" = none := rfl
  have edoc : parseDocumentation (Json.obj []) = some emptyDoc := rfl
  simp only [segRawE, parseResponse, e1, e2, e3, e4, Option.getD_some, Option.getD_none,
             pyIter, obind_some, parseSegments, optionMapList, parseSegment_emotionStr,
             edoc, asStrD, parseTasks]
  cases he : Emotion.ofString? s <;> simp [he, segResE]

theorem parseTask_priorityStr (sid s : String) :
    parseTask sid (Json.obj [("task_id", Json.str "T1"), ("priority", Json.str s)])
      = (Priority.ofString? s).map
          (fun p => ⟨"T1", "", p, "other", none, none, none, none, .PENDING, none⟩) := by
  have a1 : assoc [("task_id", Json.str "T1"), ("priority", Json.str s)]
              "medication_details" = none := rfl
  have a2 : assoc [("task_id", Json.str "T1"), ("priority", Json.str s)]
              "task_id" = some (Json.str "T1") := rfl
  have a3 : assoc [("task_id", Json.str "T1"), ("priority", Json.str s)]
              "description" = none := rfl
  have a4 : assoc [("task_id", Json.str "T1"), ("priority", Json.str s)]
              "priority" = some (Json.str s) := rfl
  have a5 : assoc [("task_id", Json.str "T1"), ("priority", Json.str s)]
              "task_type" = none := rfl
  have a6 : assoc [("task_id", Json.str "T1"), ("priority", Json.str s)]
              "due_time" = none := rfl
  have a7 : assoc [("task_id", Json.str "T1"), ("priority", Json.str s)]
              "due_minutes" = none := rfl
  have a8 : assoc [("task_id", Json.str "T1"), ("priority", Json.str s)]
              "patient_identifier" = none := rfl
  have a9 : assoc [("task_id", Json.str "T1"), ("priority", Json.str s)]
              "status" = none := rfl
  have a10 : assoc [("task_id", Json.str "T1"), ("priority", Json.str s)]
              "notes" = none := rfl
  simp only [parseTask, a1, a2, a3, a4, a5, a6, a7, a8, a9, a10, parseIfTruthy,
             parseTaskId, asStrD, asOptStr, asOptStrD, asOptInt, parsePriorityField,
             parseStatusField, obind_some]
  cases hp : Priority.ofString? s <;> simp [hp]

theorem parseTask_statusStr (sid s : String) :
    parseTask sid (Json.obj [("task_id", Json.str "T1"), ("status", Json.str s)])
      = (TaskStatus.ofString? s).map
          (fun st => ⟨"T1", "", .MEDIUM, "other", none, none, none, none, st, none⟩) := by
  have a1 : assoc [("task_id", Json.str "T1"), ("status", Json.str s)]
              "medication_details" = none := rfl
  have a2 : assoc [("task_id", Json.str "T1"), ("status", Json.str s)]
              "task_id" = some (Json.str "T1") := rfl
  have a3 : assoc [("task_id", Json.str "T1"), ("status", Json.str s)]
              "description" = none := rfl
  have a4 : assoc [("task_id", Json.str "T1"), ("status", Json.str s)]
              "priority" = none := rfl
  have a5 : assoc [("task_id", Json.str "T1"), ("status", Json.str s)]
              "task_type" = none := rfl
  have a6 : assoc [("task_id", Json.str "T1"), ("status", Json.str s)]
              "due_time" = none := rfl
  have a7 : assoc [("task_id", Json.str "T1"), ("status", Json.str s)]
              "due_minutes" = none := rfl
  have a8 : assoc [("task_id", Json.str "T1"), ("status", Json.str s)]
              "patient_identifier" = none := rfl
  have a9 : assoc [("task_id", Json.str "T1"), ("status", Json.str s)]
              "status" = some (Json.str s) := rfl
  have a10 : assoc [("task_id", Json.str "T1"), ("status", Json.str s)]
              "notes" = none := rfl
  simp only [parseTask, a1, a2, a3, a4, a5, a6, a7, a8, a9, a10, parseIfTruthy,
             parseTaskId, asStrD, asOptStr, asOptStrD, asOptInt, parsePriorityField,
             parseStatusField, obind_some]
  cases hst : TaskStatus.ofString? s <;> simp [hst]

theorem parseResponse_taskP (s : String) (t : Int) (u : Nat → String) :
    parseResponse (taskRawP s) t u
      = (Priority.ofString? s).map (fun p => taskResP p TaskStatus.PENDING t) := by
  have e1 : assoc [("nurse_tasks",
              Json.arr [Json.obj [("task_id", Json.str "T1"), ("priority", Json.str s)]])]
              "transcript_segments" = none := rfl
  have e2 : assoc [("nurse_tasks",
              Json.arr [Json.obj [("task_id", Json.str "T1"), ("priority", Json.str s)]])]
              "documentation" = none := rfl
  have e3 : assoc [("nurse_tasks",
              Json.arr [Json.obj [("task_id", Json.str "T1"), ("priority", Json.str s)]])]
              "nurse_tasks"
              = some (Json.arr [Json.obj [("task_id", Json.str "T1"),
                                          ("priority", Json.str s)]]) := rfl
  have e4 : assoc [("nurse_tasks",
              Json.arr [Json.obj [("task_id", Json.str "T1"), ("priority", Json.str s)]])]
              "summary" = none := rfl
  have edoc : parseDocumentation (Json.obj []) = some emptyDoc := rfl
  simp only [taskRawP, parseResponse, e1, e2, e3, e4, Option.getD_some, Option.getD_none,
             pyIter, obind_some, parseSegments, optionMapList, parseTasks,
             parseTask_priorityStr, edoc, asStrD]
  cases hp : Priority.ofString? s <;> simp [hp, taskResP]

theorem parseResponse_taskS (s : String) (t : Int) (u : Nat → String) :
    parseResponse (taskRawS s) t u
      = (TaskStatus.ofString? s).map (fun st => taskResP Priority.MEDIUM st t) := by
  have e1 : assoc [("nurse_tasks",
              Json.arr [Json.obj [("task_id", Json.str "T1"), ("status", Json.str s)]])]
              "transcript_segments" = none := rfl
  have e2 : assoc [("nurse_tasks",
              Json.arr [Json.obj [("task_id", Json.str "T1"), ("status", Json.str s)]])]
              "documentation" = none := rfl
  have e3 : assoc [("nurse_tasks",
              Json.arr [Json.obj [("task_id", Json.str "T1"), ("status", Json.str s)]])]
              "nurse_tasks"
              = some (Json.arr [Json.obj [("task_id", Json.str "T1"),
                                          ("status", Json.str s)]]) := rfl
  have e4 : assoc [("nurse_tasks",
              Json.arr [Json.obj [("task_id", Json.str "T1"), ("status", Json.str s)]])]
              "summary" = none := rfl
  have edoc : parseDocumentation (Json.obj []) = some emptyDoc := rfl
  simp only [taskRawS, parseResponse, e1, e2, e3, e4, Option.getD_some, Option.getD_none,
             pyIter, obind_some, parseSegments, optionMapList, parseTasks,
             parseTask_statusStr, edoc, asStrD]
  cases hst : TaskStatus.ofString? s <;> simp [hst, taskResP]

theorem parseTaskId_some (s1 s2 : String) (v : Json) :
    parseTaskId s1 (some v) = parseTaskId s2 (some v) := by
  cases v <;> rfl

theorem parseTask_explicit (s1 s2 : String) (tfs : List (String × Json))
    (h : (assoc tfs "task_id").isSome = true) :
    parseTask s1 (Json.obj tfs) = parseTask s2 (Json.obj tfs) := by
  obtain ⟨v, hv⟩ := Option.isSome_iff_exists.mp h
  simp only [parseTask, hv]
  rw [parseTaskId_some s1 s2 v]

theorem parseTask_map_scrub (s1 s2 : String) (j : Json) :
    (parseTask s1 j).map scrubTask = (parseTask s2 j).map scrubTask := by
  cases j with
  | obj fs =>
      simp only [parseTask]
      cases hm : parseIfTruthy Medication.fromDict (assoc fs "medication_details") with
      | none => rfl
      | some md =>
          simp only [obind_some]
          cases htid : assoc fs "task_id" with
          | some v =>
              rw [parseTaskId_some s1 s2 v]
          | none =>
              simp only [parseTaskId, obind_some]
              cases h3 : asStrD (assoc fs "description") "" with
              | none => rfl
              | some de =>
                  simp only [obind_some]
                  cases h4 : parsePriorityField (assoc fs "priority") with
                  | none => rfl
                  | some pr =>
                      simp only [obind_some]
                      cases h5 : asStrD (assoc fs "task_type") "other" with
                      | none => rfl
                      | some tt =>
                          simp only [obind_some]
                          cases h6 : asOptStr (assoc fs "due_time") with
                          | none => rfl
                          | some dt =>
                              simp only [obind_some]
                              cases h7 : asOptInt (assoc fs "due_minutes") with
                              | none => rfl
                              | some dm =>
                                  simp only [obind_some]
                                  cases h8 : asOptStr (assoc fs "patient_identifier") with
                                  | none => rfl
                                  | some pi =>
                                      simp only [obind_some]
                                      cases h9 : parseStatusField (assoc fs "status") with
                                      | none => rfl
                                      | some st =>
                                          simp only [obind_some]
                                          cases h10 : asOptStr (assoc fs "notes") with
                                          | none => rfl
                                          | some no => rfl
  | null => rfl
  | bool b => rfl
  | num n => rfl
  | str s => rfl
  | arr elems => rfl

theorem parseTasks_length {u : Nat → String} {js : List Json} {l : List NurseTask} :
    ∀ {i}, parseTasks u i js = some l → l.length = js.length := by
  induction js generalizing l with
  | nil => intro i h; simp [parseTasks] at h; simp [← h]
  | cons x rest ih =>
      intro i h
      simp only [parseTasks, obind_eq_some, Option.some.injEq] at h
      obtain ⟨a, _, ts, hts, hcons⟩ := h
      subst hcons
      simp [ih hts]

theorem parseTasks_map_scrub (u1 u2 : Nat → String) (js : List Json) :
    ∀ i, (parseTasks u1 i js).map (List.map scrubTask)
      = (parseTasks u2 i js).map (List.map scrubTask) := by
  induction js with
  | nil => intro i; rfl
  | cons x rest ih =>
      intro i
      have hx := parseTask_map_scrub (u1 i) (u2 i) x
      have hr := ih (i + 1)
      simp only [parseTasks]
      cases h1 : parseTask (u1 i) x with
      | none =>
          rw [h1] at hx
          cases h2 : parseTask (u2 i) x with
          | none => rfl
          | some b => rw [h2] at hx; simp at hx
      | some a =>
          rw [h1] at hx
          cases h2 : parseTask (u2 i) x with
          | none => rw [h2] at hx; simp at hx
          | some b =>
              rw [h2] at hx
              simp only [Option.map_some', Option.some.injEq] at hx
              simp only [obind_some]
              cases h3 : parseTasks u1 (i + 1) rest with
              | none =>
                  rw [h3] at hr
                  cases h4 : parseTasks u2 (i + 1) rest with
                  | none => rfl
                  | some l2 => rw [h4] at hr; simp at hr
              | some l1 =>
                  rw [h3] at hr
                  cases h4 : parseTasks u2 (i + 1) rest with
                  | none => rw [h4] at hr; simp at hr
                  | some l2 =>
                      rw [h4] at hr
                      simp only [Option.map_some', Option.some.injEq] at hr
                      simp [List.map_cons, hx, hr]

theorem parseResponse_map_scrub (raw : Json) (t : Int) (u1 u2 : Nat → String) :
    (parseResponse raw t u1).map scrubIds = (parseResponse raw t u2).map scrubIds := by
  cases raw with
  | obj fs =>
      simp only [parseResponse]
      cases h1 : pyIter ((assoc fs "transcript_segments").getD (Json.arr [])) with
      | none => rfl
      | some segJs =>
          simp only [obind_some]
          cases h2 : parseSegments segJs with
          | none => rfl
          | some segments =>
              simp only [obind_some]
              cases h3 : parseDocumentation ((assoc fs "documentation").getD (Json.obj [])) with
              | none => rfl
              | some doc =>
                  simp only [obind_some]
                  cases h4 : pyIter ((assoc fs "nurse_tasks").getD (Json.arr [])) with
                  | none => rfl
                  | some taskJs =>
                      simp only [obind_some]
                      have hts := parseTasks_map_scrub u1 u2 taskJs 0
                      cases h5 : parseTasks u1 0 taskJs with
                      | none =>
                          rw [h5] at hts
                          cases h6 : parseTasks u2 0 taskJs with
                          | none => rfl
                          | some l2 => rw [h6] at hts; simp at hts
                      | some l1 =>
                          rw [h5] at hts
                          cases h6 : parseTasks u2 0 taskJs with
                          | none => rw [h6] at hts; simp at hts
                          | some l2 =>
                              rw [h6] at hts
                              simp only [Option.map_some', Option.some.injEq] at hts
                              simp only [obind_some]
                              cases h7 : asStrD (assoc fs "summary") "" with
                              | none => rfl
                              | some summary =>
                                  simp only [obind_some, Option.map_some',
                                             Option.some.injEq]
                                  simp [scrubIds, hts]
  | null => rfl
  | bool b => rfl
  | num n => rfl
  | str s => rfl
  | arr elems => rfl

theorem anyKey_iff (ct : String) :
    (allowedTypes.any (fun p => p.1 == ct) = true) ↔
      ct ∈ ["audio/mpeg", "audio/mp3", "audio/wav", "audio/x-wav", "audio/webm",
            "audio/ogg", "audio/mp4", "audio/x-m4a", "video/webm"] := by
  constructor
  · intro h
    rcases List.any_eq_true.mp h with ⟨p, hp, hpe⟩
    have hc : ct = p.1 := (beq_iff_eq.mp hpe).symm
    subst hc
    fin_cases hp <;> decide
  · intro h
    fin_cases h <;> decide

theorem extAny_iff (x : String) :
    (extAllowList.any (fun e => e == x) = true) ↔
      x ∈ (["mp3", "wav", "webm", "ogg", "m4a"] : List String) := by
  constructor
  · intro h
    rcases List.any_eq_true.mp h with ⟨e, he, hee⟩
    have hc : x = e := (beq_iff_eq.mp hee).symm
    subst hc
    simpa [extAllowList] using he
  · intro h
    fin_cases h <;> decide

/-! Claim theorems. -/

/-- C1 counterexample: a top-level JSON object whose only anomaly is a
single symptom entry missing its required `name` field makes
`_parse_response` raise (`Symptom(**{\x7d)` is a pydantic `ValidationError`),
aborting the whole parse instead of being recovered by defaulting. -/
theorem c1_counterexample : parseResponse cexSymptomRaw 0 uuidA = none := by rfl

/-- C1 amended: `_parse_response` can raise on decodable object input.
Transcript segments and nurse tasks read every field through `dict.get`
with a default, so segments and tasks missing any or all of their fields —
here, arbitrarily many completely empty ones — are recovered via defaulting
and the parse never aborts on them; but entities constructed by dict splat
(symptom, vital sign, diagnosis, medication, insurance issue) missing a
required field raise a validation error that aborts processing of the whole
response (see the counterexample). -/
theorem c1_amended (n m : Nat) (t : Int) (u : Nat → String) :
    parseResponse
      (Json.obj [("transcript_segments", Json.arr (List.replicate n (Json.obj []))),
                 ("nurse_tasks", Json.arr (List.replicate m (Json.obj [])))]) t u
      = some ⟨"", List.replicate n defaultSeg, emptyDoc,
              (List.range m).map (fun k => defaultTask (⟨(u k).data.take 8⟩ : String)),
              some t⟩ := by
  have e1 : assoc [("transcript_segments", Json.arr (List.replicate n (Json.obj []))),
                   ("nurse_tasks", Json.arr (List.replicate m (Json.obj [])))]
              "transcript_segments" = some (Json.arr (List.replicate n (Json.obj []))) := rfl
  have e2 : assoc [("transcript_segments", Json.arr (List.replicate n (Json.obj []))),
                   ("nurse_tasks", Json.arr (List.replicate m (Json.obj [])))]
              "nurse_tasks" = some (Json.arr (List.replicate m (Json.obj []))) := rfl
  have e3 : assoc [("transcript_segments", Json.arr (List.replicate n (Json.obj []))),
                   ("nurse_tasks", Json.arr (List.replicate m (Json.obj [])))]
              "documentation" = none := rfl
  have e4 : assoc [("transcript_segments", Json.arr (List.replicate n (Json.obj []))),
                   ("nurse_tasks", Json.arr (List.replicate m (Json.obj [])))]
              "summary" = none := rfl
  have edoc : parseDocumentation (Json.obj []) = some emptyDoc := rfl
  simp only [parseResponse, e1, e2, e3, e4, Option.getD_some, Option.getD_none,
             pyIter, obind_some, parseSegments_replicate, parseTasks_replicate u m 0,
             edoc, asStrD, Nat.zero_add]

/-- C2 counterexample: a segment whose `emotion` is the string `"HAPPY"` —
outside the closed set, which is lower-case — makes `_parse_response` raise
(`Emotion("HAPPY")` is a `ValueError`) instead of substituting the
documented default `neutral`. -/
theorem c2_counterexample : parseResponse (segRawE "HAPPY") 0 uuidA = none := by rfl

/-- C2 amended: for each enum-typed field, an absent raw value yields the
documented default (`Emotion` → neutral, `Priority` → MEDIUM, `TaskStatus`
→ PENDING) and a case-sensitive exact member of the closed set is kept
(`Emotion.ofString?` / `Priority.ofString?` / `TaskStatus.ofString?` return
it); but a string outside the closed set is NOT replaced by the default:
the enum constructor raises `ValueError` and the whole parse aborts (the
`Option.map` over `ofString?` is `none`).  Conjuncts 1-5 run the whole
pipeline on a one-segment / one-task input with an arbitrary enum string;
conjuncts 6-8 characterize the three field parsers on every raw value;
conjuncts 9-10 show every parsed segment's emotion and every parsed task's
priority and status arise from exactly that field handling of its own raw
dict, for every raw input. -/
theorem c2_amended (es ps ss : String) (t : Int) (u : Nat → String) :
    (parseResponse (segRawE es) t u = (Emotion.ofString? es).map (fun e => segResE e t)) ∧
    (parseResponse segRaw0 t u = some (segResE Emotion.neutral t)) ∧
    (parseResponse (taskRawP ps) t u
      = (Priority.ofString? ps).map (fun p => taskResP p TaskStatus.PENDING t)) ∧
    (parseResponse (taskRawS ss) t u
      = (TaskStatus.ofString? ss).map (fun st => taskResP Priority.MEDIUM st t)) ∧
    (parseResponse taskRaw0 t u = some (taskResP Priority.MEDIUM TaskStatus.PENDING t)) ∧
    (parseEmotionField none = some Emotion.neutral ∧
      ∀ s, parseEmotionField (some (Json.str s)) = Emotion.ofString? s) ∧
    (parsePriorityField none = some Priority.MEDIUM ∧
      ∀ s, parsePriorityField (some (Json.str s)) = Priority.ofString? s) ∧
    (parseStatusField none = some TaskStatus.PENDING ∧
      ∀ s, parseStatusField (some (Json.str s)) = TaskStatus.ofString? s) ∧
    (∀ raw r, parseResponse raw t u = some r →
      ∀ k sfs, (segmentsRaw raw).get? k = some (Json.obj sfs) →
        ∃ seg, r.transcript_segments.get? k = some seg ∧
          parseEmotionField (assoc sfs "emotion") = some seg.emotion) ∧
    (∀ s tfs a, parseTask s (Json.obj tfs) = some a →
      parsePriorityField (assoc tfs "priority") = some a.priority ∧
      parseStatusField (assoc tfs "status") = some a.status) := by
  refine ⟨parseResponse_segE es t u, rfl, parseResponse_taskP ps t u,
          parseResponse_taskS ss t u, rfl, ⟨rfl, fun s => rfl⟩, ⟨rfl, fun s => rfl⟩,
          ⟨rfl, fun s => rfl⟩, ?_, ?_⟩
  · intro raw r h k sfs hk
    obtain ⟨fs, segJs, segments, documentation, taskJs, nurse_tasks, summary,
            hraw, hsJs, hsegs, _, _, _, _, hr⟩ := parseResponse_eq_some h
    subst hraw
    have hsr : segmentsRaw (Json.obj fs) = segJs := by
      simp only [segmentsRaw, hsJs, Option.getD_some]
    rw [hsr] at hk
    obtain ⟨seg, hseg, hget⟩ := optionMapList_get hsegs k _ hk
    obtain ⟨sfs', heq, hem⟩ := parseSegment_eq_some hseg
    injection heq with hfseq
    subst hfseq
    refine ⟨seg, ?_, hem⟩
    rw [hr]
    exact hget
  · intro s tfs a ha
    obtain ⟨tfs', heq, _, _, hpr, hst⟩ := parseTask_eq_some ha
    injection heq with hfseq
    subst hfseq
    exact ⟨hpr, hst⟩

/-- C2 witness: the hypothesis-bearing conjuncts of `c2_amended` applied at
a concrete raw input: one segment with emotion `"calm"` and one task with
priority `"HIGH"`. -/
theorem c2_witness :
    (∃ seg, (segResE Emotion.calm 4).transcript_segments.get? 0 = some seg ∧
      parseEmotionField (assoc [("emotion", Json.str "calm")] "emotion")
        = some seg.emotion) ∧
    parsePriorityField (assoc [("task_id", Json.str "T1"), ("priority", Json.str "HIGH")]
        "priority") = some Priority.HIGH ∧
    parseStatusField (assoc [("task_id", Json.str "T1"), ("priority", Json.str "HIGH")]
        "status") = some TaskStatus.PENDING := by
  have h := c2_amended "calm" "HIGH" "PENDING" 4 uuidA
  refine ⟨?_, ?_⟩
  · apply h.2.2.2.2.2.2.2.2.1 (segRawE "calm") (segResE Emotion.calm 4) (by decide) 0
    rfl
  · exact h.2.2.2.2.2.2.2.2.2 "unused-uuid"
      [("task_id", Json.str "T1"), ("priority", Json.str "HIGH")]
      ⟨"T1", "", Priority.HIGH, "other", none, none, none, none, .PENDING, none⟩
      (by decide)

/-- C3 counterexample: a raw input containing a task that omits `task_id`
(so the claim's premise holds) together with two tasks carrying the same
explicit `task_id` parses successfully, and the resulting task-id list
`["dup", "dup", "aaaaaaaa"]` is not pairwise distinct — the mapping layer
never checks uniqueness of explicit identifiers. -/
theorem c3_counterexample :
    (parseResponse cexDupTasksRaw 0 uuidA).map (fun r => r.nurse_tasks.map (fun a => a.task_id))
      = some ["dup", "dup", "aaaaaaaa"] ∧
    ¬ (["dup", "dup", "aaaaaaaa"] : List String).Pairwise (fun a b => a ≠ b) := by
  exact ⟨by rfl, by decide⟩

/-- C3 amended: a nurse task omitting `task_id` receives the first 8
characters of the freshly generated canonical UUID string consumed at its
position — an identifier of length 8, hence non-empty — but pairwise
distinctness of all task_id values in the result is not enforced: explicit
identifiers are passed through unchecked (see the counterexample), and a
synthesized prefix is not checked against other identifiers either. -/
theorem c3_amended (raw : Json) (t : Int) (u : Nat → String) (r : ProcessingResult)
    (hu : ∀ i, (u i).length = 36) (h : parseResponse raw t u = some r) :
    ∀ k tfs, (nurseTasksRaw raw).get? k = some (Json.obj tfs) →
      assoc tfs "task_id" = none →
      ∃ a, r.nurse_tasks.get? k = some a ∧
        a.task_id = (⟨(u k).data.take 8⟩ : String) ∧
        a.task_id.length = 8 ∧ a.task_id ≠ "" := by
  intro k tfs hk hid
  obtain ⟨fs, segJs, segments, documentation, taskJs, nurse_tasks, summary,
          hraw, _, _, _, htJs, htasks, _, hr⟩ := parseResponse_eq_some h
  subst hraw
  have htr : nurseTasksRaw (Json.obj fs) = taskJs := by
    simp only [nurseTasksRaw, htJs, Option.getD_some]
  rw [htr] at hk
  obtain ⟨a, ha, hget⟩ := parseTasks_get htasks k _ hk
  obtain ⟨tfs', heq, _, hidv, _⟩ := parseTask_eq_some ha
  cases heq
  rw [hid] at hidv
  simp only [parseTaskId, Option.some.injEq] at hidv
  have hlen : a.task_id.length = 8 := by
    rw [← hidv]
    have h36 : (u (0 + k)).data.length = 36 := hu (0 + k)
    simp only [String.length, List.length_take, h36]
    decide
  refine ⟨a, ?_, ?_, hlen, ?_⟩
  · rw [hr]; exact hget
  · rw [← hidv, Nat.zero_add]
  · intro hempty
    rw [hempty] at hlen
    simp [String.length] at hlen

/-- C3 witness: `c3_amended` applied to one task omitting `task_id` under
the canonical supply `uuidA`. -/
theorem c3_witness :
    ∃ a, resOneTask.nurse_tasks.get? 0 = some a ∧ a.task_id = "aaaaaaaa" ∧
      a.task_id.length = 8 ∧ a.task_id ≠ "" := by
  have h := c3_amended oneTaskRaw 0 uuidA resOneTask (fun i => rfl) (by decide)
              0 [] rfl rfl
  obtain ⟨a, h1, h2, h3, h4⟩ := h
  exact ⟨a, h1, by rw [h2]; rfl, h3, h4⟩

/-- C7: `_parse_response` is deterministic and idempotent up to identifier
synthesis.  Two runs on the same raw input and elapsed time, under possibly
different fresh-UUID draws, succeed or fail together and agree on every
field after blanking task identifiers (`scrubIds` touches nothing but
`task_id`); and at every position whose raw task carries an explicit
`task_id`, the two runs produce identical tasks — only identifiers
synthesized for an omitted `task_id` may differ. -/
theorem c7_deterministic_up_to_synth (raw : Json) (t : Int) (u1 u2 : Nat → String) :
    (parseResponse raw t u1).map scrubIds = (parseResponse raw t u2).map scrubIds ∧
    (∀ r1 r2 k a b, parseResponse raw t u1 = some r1 → parseResponse raw t u2 = some r2 →
      (∀ tfs, (nurseTasksRaw raw).get? k = some (Json.obj tfs) →
          (assoc tfs "task_id").isSome = true) →
      r1.nurse_tasks.get? k = some a → r2.nurse_tasks.get? k = some b → a = b) := by
  refine ⟨parseResponse_map_scrub raw t u1 u2, ?_⟩
  intro r1 r2 k a b h1 h2 hexp hga hgb
  obtain ⟨fs, sJ1, sg1, doc1, taskJs, tasks1, sm1, hraw, _, _, _, htJs, htasks1, _, hr1⟩ :=
    parseResponse_eq_some h1
  obtain ⟨fs', sJ2, sg2, doc2, taskJs', tasks2, sm2, hraw', _, _, _, htJs', htasks2, _, hr2⟩ :=
    parseResponse_eq_some h2
  subst hraw
  injection hraw' with hfs
  subst hfs
  rw [htJs] at htJs'
  injection htJs' with htJeq
  subst htJeq
  have htr : nurseTasksRaw (Json.obj fs) = taskJs := by
    simp only [nurseTasksRaw, htJs, Option.getD_some]
  rw [hr1] at hga
  rw [hr2] at hgb
  simp only at hga hgb
  have hlt : k < taskJs.length := by
    have hlen := parseTasks_length htasks1
    have := (List.get?_eq_some.mp hga).1
    omega
  have hj : taskJs.get? k = some (taskJs.get ⟨k, hlt⟩) := List.get?_eq_get hlt
  obtain ⟨a', ha', hga'⟩ := parseTasks_get htasks1 k _ hj
  obtain ⟨b', hb', hgb'⟩ := parseTasks_get htasks2 k _ hj
  rw [hga] at hga'
  rw [hgb] at hgb'
  injection hga' with haa
  injection hgb' with hbb
  subst haa
  subst hbb
  cases hjv : taskJs.get ⟨k, hlt⟩ with
  | obj tfs =>
      rw [hjv] at ha' hb'
      have hid : (assoc tfs "task_id").isSome = true := by
        apply hexp
        rw [htr, hj, hjv]
      rw [parseTask_explicit (u1 (0 + k)) (u2 (0 + k)) tfs hid] at ha'
      rw [ha'] at hb'
      injection hb'
  | null => rw [hjv] at ha'; simp [parseTask] at ha'
  | bool bb => rw [hjv] at ha'; simp [parseTask] at ha'
  | num nn => rw [hjv] at ha'; simp [parseTask] at ha'
  | str ss => rw [hjv] at ha'; simp [parseTask] at ha'
  | arr ee => rw [hjv] at ha'; simp [parseTask] at ha'

/-- C7 witness: `c7_deterministic_up_to_synth` applied to a raw input with
one explicit-id task and one id-less task, under two different UUID
supplies. -/
theorem c7_witness :
    (parseResponse mixedTasksRaw 0 uuidA).map scrubIds
      = (parseResponse mixedTasksRaw 0 uuidB).map scrubIds ∧
    defaultTask "keep" = defaultTask "keep" := by
  have h := c7_deterministic_up_to_synth mixedTasksRaw 0 uuidA uuidB
  refine ⟨h.1, ?_⟩
  refine h.2 resMixedA resMixedB 0 (defaultTask "keep") (defaultTask "keep")
    (by decide) (by decide) ?_ (by decide) (by decide)
  intro tfs htfs
  rw [show (nurseTasksRaw mixedTasksRaw).get? 0
        = some (Json.obj [("task_id", Json.str "keep")]) from rfl] at htfs
  injection htfs with hobj
  injection hobj with hfields
  rw [← hfields]
  rfl

/-- C5 counterexample: when the remote upload reports FAILED, the exception
is raised before the cleanup call — the deletion of the remote artifact is
NOT attempted (the flag is `false`), contradicting "attempted on every
execution path after the upload".  (A raised `generate_content` error skips
it the same way: there is no try/finally around lines 392-417.) -/
theorem c5_counterexample : processAudioFile envFailed 3 = some (false, none) := by rfl

/-- C5 amended: deletion of the remote artifact is attempted exactly when
polling terminates in a non-FAILED state and `generate_content` returns
without raising; on the FAILED path and on a generation failure no deletion
is attempted.  When it is attempted, its failure is swallowed: the outcome
is entirely independent of whether the deletion succeeds. -/
theorem c5_amended (env : AudioEnv) (fuel : Nat) :
    processAudioFile { env with deleteOk := true } fuel
      = processAudioFile { env with deleteOk := false } fuel ∧
    (∀ b out, processAudioFile env fuel = some (b, out) →
      (b = true ↔ ∃ st, pollLoop env.states 0 fuel = some st ∧
          st ≠ FState.failed ∧ env.genOk = true)) := by
  refine ⟨rfl, ?_⟩
  intro b out h
  simp only [processAudioFile] at h
  cases hp : pollLoop env.states 0 fuel with
  | none => rw [hp] at h; cases h
  | some st =>
      rw [hp] at h
      simp only [] at h
      by_cases hfail : st = FState.failed
      · rw [if_pos hfail] at h
        injection h with h2
        injection h2 with hb hout
        subst hb
        constructor
        · intro habs; cases habs
        · rintro ⟨st', hst', hne, _⟩
          injection hst' with he
          exact absurd (he ▸ hfail) hne
      · rw [if_neg hfail] at h
        cases hgen : env.genOk with
        | true =>
            rw [hgen, if_pos rfl] at h
            cases hdec : env.decoded with
            | none =>
                rw [hdec] at h
                injection h with h2
                injection h2 with hb hout
                subst hb
                exact ⟨fun _ => ⟨st, rfl, hfail, rfl⟩, fun _ => rfl⟩
            | some j =>
                rw [hdec] at h
                injection h with h2
                injection h2 with hb hout
                subst hb
                exact ⟨fun _ => ⟨st, rfl, hfail, rfl⟩, fun _ => rfl⟩
        | false =>
            rw [hgen, if_neg (by simp)] at h
            injection h with h2
            injection h2 with hb hout
            subst hb
            constructor
            · intro habs; cases habs
            · rintro ⟨st', _, _, hg⟩
              cases hg

/-- C5 witness: `c5_amended` applied to an environment that polls once and
succeeds. -/
theorem c5_witness :
    processAudioFile { envOk with deleteOk := true } 3
      = processAudioFile { envOk with deleteOk := false } 3 ∧
    (true = true ↔ ∃ st, pollLoop envOk.states 0 3 = some st ∧
        st ≠ FState.failed ∧ envOk.genOk = true) :=
  ⟨(c5_amended envOk 3).1,
   (c5_amended envOk 3).2 true (some (emptyResult 7)) (by decide)⟩

/-- C6 counterexample: the content type `audio/mp3` is outside the claim's
eight-entry allow-list and the filename `report.xyz` has no recognized
extension, yet the request is NOT rejected — the code's `allowed_types`
dict additionally contains `audio/mp3`. -/
theorem c6_counterexample :
    processAudioRejects (some "audio/mp3") (some "report.xyz") = false ∧
    ¬ ("audio/mp3" ∈ ["audio/mpeg", "audio/wav", "audio/x-wav", "audio/webm",
        "audio/ogg", "audio/mp4", "audio/x-m4a", "video/webm"]) ∧
    ¬ (extOf (some "report.xyz") ∈ (["mp3", "wav", "webm", "ogg", "m4a"] : List String)) := by
  exact ⟨rfl, by decide, by decide⟩

/-- C6 amended: the upload endpoint rejects a request with the 400 error
exactly when its effective content type (missing/empty falls back to
`audio/mpeg`) is outside the NINE-entry allow-list — the eight types the
claim lists plus `audio/mp3` — and its filename extension is not one of
mp3, wav, webm, ogg, m4a; requests matching the allow-list or the extension
fallback are not rejected by this check. -/
theorem c6_amended (c f : Option String) :
    processAudioRejects c f = true ↔
      (¬ effectiveContentType c ∈ ["audio/mpeg", "audio/mp3", "audio/wav", "audio/x-wav",
          "audio/webm", "audio/ogg", "audio/mp4", "audio/x-m4a", "video/webm"] ∧
       ¬ extOf f ∈ (["mp3", "wav", "webm", "ogg", "m4a"] : List String)) := by
  simp only [processAudioRejects]
  by_cases hct : allowedTypes.any (fun p => p.1 == effectiveContentType c) = true
  · rw [if_pos hct]
    constructor
    · intro hh; cases hh
    · rintro ⟨hmem, _⟩
      exact absurd ((anyKey_iff _).mp hct) hmem
  · rw [if_neg hct]
    have hct' : ¬ effectiveContentType c ∈ ["audio/mpeg", "audio/mp3", "audio/wav",
        "audio/x-wav", "audio/webm", "audio/ogg", "audio/mp4", "audio/x-m4a",
        "video/webm"] := fun hmem => hct ((anyKey_iff _).mpr hmem)
    constructor
    · intro hh
      refine ⟨hct', fun hmem => ?_⟩
      rw [show extAllowList.any (fun e => e == extOf f) = true from (extAny_iff _).mpr hmem]
        at hh
      cases hh
    · rintro ⟨_, hext⟩
      cases hx : extAllowList.any (fun e => e == extOf f) with
      | false => rfl
      | true => exact absurd ((extAny_iff _).mp hx) hext

/-- C9: every `ProcessingResult` constructed by `_parse_response` has
`processing_time` equal to the supplied elapsed-seconds value — never
`None`, although the model declares the field optional — and both
orchestration paths (`process_audio_file`, `process_youtube_url`) pass
their measured elapsed time through to it. -/
theorem c9_processing_time_always_set :
    (∀ raw t u r, parseResponse raw t u = some r → r.processing_time = some t) ∧
    (∀ env fuel b r, processAudioFile env fuel = some (b, some r) →
        r.processing_time = some env.elapsed) ∧
    (∀ env r, processYoutubeUrl env = some r → r.processing_time = some env.elapsed) := by
  have base : ∀ raw t u r, parseResponse raw t u = some r → r.processing_time = some t := by
    intro raw t u r h
    obtain ⟨fs, segJs, segments, documentation, taskJs, nurse_tasks, summary,
            _, _, _, _, _, _, _, hr⟩ := parseResponse_eq_some h
    rw [hr]
  refine ⟨base, ?_, ?_⟩
  · intro env fuel b r h
    unfold processAudioFile at h
    cases hp : pollLoop env.states 0 fuel with
    | none => rw [hp] at h; cases h
    | some st =>
        rw [hp] at h
        by_cases hfail : st = FState.failed
        · simp [hfail] at h
        · simp only [hfail, if_false] at h
          by_cases hgen : env.genOk
          · simp only [hgen, if_true] at h
            cases hdec : env.decoded with
            | none => rw [hdec] at h; simp at h
            | some j =>
                rw [hdec] at h
                simp only [Option.some.injEq, Prod.mk.injEq] at h
                exact base j env.elapsed env.uuids r h.2
          · simp [hgen] at h
  · intro env r h
    unfold processYoutubeUrl at h
    by_cases hgen : env.genOk
    · simp only [hgen, if_true] at h
      cases hdec : env.decoded with
      | none => rw [hdec] at h; cases h
      | some j => rw [hdec] at h; exact base j env.elapsed env.uuids r h
    · simp [hgen] at h

/-- C9 witness: the three components of `c9_processing_time_always_set`
applied at concrete inputs. -/
theorem c9_witness :
    (emptyResult 5).processing_time = some 5 ∧
    (emptyResult 7).processing_time = some 7 ∧
    (emptyResult 9).processing_time = some 9 := by
  refine ⟨c9_processing_time_always_set.1 (Json.obj []) 5 uuidA _ (by decide), ?_, ?_⟩
  · exact c9_processing_time_always_set.2.1 envOk 3 true _ (by decide)
  · exact c9_processing_time_always_set.2.2 envUrlOk _ (by decide)

/-- C4: if the raw `nurse_handover` is absent or null the normalized
documentation has `nurse_handover = None`; whenever a handover object is
constructed, the raw value was a dict carrying all three required fields
(`summary_sbar`, string; `critical_alerts` and `pending_actions`, string
lists) — a partially-populated handover is never constructed.  The same
jointly-required discipline holds for `patient_summary`, for every
constructed `Medication` (its three required fields) and for every
constructed `InsuranceIssue` (its four required fields). -/
theorem c4_handover_all_or_nothing (raw : Json) (t : Int) (u : Nat → String)
    (r : ProcessingResult) (h : parseResponse raw t u = some r) :
    ((handoverRaw raw = none ∨ handoverRaw raw = some Json.null) →
        r.documentation.nurse_handover = none) ∧
    (∀ hv, r.documentation.nurse_handover = some hv →
        ∃ hfs, handoverRaw raw = some (Json.obj hfs) ∧
          assoc hfs "summary_sbar" = some (Json.str hv.summary_sbar) ∧
          assoc hfs "critical_alerts" = some (Json.arr (hv.critical_alerts.map Json.str)) ∧
          assoc hfs "pending_actions" = some (Json.arr (hv.pending_actions.map Json.str))) ∧
    ((patientSummaryRaw raw = none ∨ patientSummaryRaw raw = some Json.null) →
        r.documentation.patient_summary = none) ∧
    (∀ pv, r.documentation.patient_summary = some pv →
        ∃ pfs, patientSummaryRaw raw = some (Json.obj pfs) ∧
          assoc pfs "translated_content" = some (Json.str pv.translated_content) ∧
          assoc pfs "whatsapp_message" = some (Json.str pv.whatsapp_message)) ∧
    (∀ j m, Medication.fromDict j = some m →
        ∃ mfs, j = Json.obj mfs ∧
          assoc mfs "drug_name" = some (Json.str m.drug_name) ∧
          assoc mfs "dosage" = some (Json.str m.dosage) ∧
          assoc mfs "frequency" = some (Json.str m.frequency)) ∧
    (∀ j iss, InsuranceIssue.fromDict j = some iss →
        ∃ ifs, j = Json.obj ifs ∧
          assoc ifs "severity" = some (Json.str iss.severity) ∧
          assoc ifs "rule_violated" = some (Json.str iss.rule_violated) ∧
          assoc ifs "missing_evidence" = some (Json.str iss.missing_evidence) ∧
          assoc ifs "suggestion" = some (Json.str iss.suggestion)) := by
  obtain ⟨fs, segJs, segments, documentation, taskJs, nurse_tasks, summary,
          hraw, _, _, hdoc, _, _, _, hr⟩ := parseResponse_eq_some h
  subst hraw
  obtain ⟨dfs, hdfs, hnh, hps, _⟩ := parseDocumentation_eq_some hdoc
  have hdocRaw : docRaw (Json.obj fs) = Json.obj dfs := by
    simp only [docRaw]; exact hdfs
  have hhr : handoverRaw (Json.obj fs) = assoc dfs "nurse_handover" := by
    simp only [handoverRaw, hdocRaw]
  have hpr : patientSummaryRaw (Json.obj fs) = assoc dfs "patient_summary" := by
    simp only [patientSummaryRaw, hdocRaw]
  have hrdoc : r.documentation = documentation := by rw [hr]
  refine ⟨?_, ?_, ?_, ?_, ?_, ?_⟩
  · rintro (habs | hnull)
    · rw [hhr] at habs
      rw [habs] at hnh
      simp only [parseIfTruthy, Option.some.injEq] at hnh
      rw [hrdoc, ← hnh]
    · rw [hhr] at hnull
      rw [hnull] at hnh
      simp [parseIfTruthy, Json.truthy] at hnh
      rw [hrdoc]
      exact hnh.symm
  · intro hv hhv
    rw [hrdoc] at hhv
    rw [hhv] at hnh
    obtain ⟨jv, hjv, _, hfd⟩ := parseIfTruthy_eq_some_some hnh
    obtain ⟨hfs, hjo, h1, h2, h3⟩ := nurseHandover_fromDict_shape hfd
    exact ⟨hfs, by rw [hhr, hjv, hjo], h1, h2, h3⟩
  · rintro (habs | hnull)
    · rw [hpr] at habs
      rw [habs] at hps
      simp only [parseIfTruthy, Option.some.injEq] at hps
      rw [hrdoc, ← hps]
    · rw [hpr] at hnull
      rw [hnull] at hps
      simp [parseIfTruthy, Json.truthy] at hps
      rw [hrdoc]
      exact hps.symm
  · intro pv hpv
    rw [hrdoc] at hpv
    rw [hpv] at hps
    obtain ⟨jv, hjv, _, hfd⟩ := parseIfTruthy_eq_some_some hps
    obtain ⟨pfs, hjo, h1, h2⟩ := patientSummary_fromDict_shape hfd
    exact ⟨pfs, by rw [hpr, hjv, hjo], h1, h2⟩
  · intro j m hm
    obtain ⟨mfs, hjo, h1, h2, h3, _⟩ := medication_fromDict_shape hm
    exact ⟨mfs, hjo, h1, h2, h3⟩
  · intro j iss hiss
    exact insuranceIssue_fromDict_shape hiss

/-- C4 witness: `c4_handover_all_or_nothing` applied to a raw input with a
fully-populated handover and patient summary. -/
theorem c4_witness :
    ∃ hfs, handoverRaw handoverOkRaw = some (Json.obj hfs) ∧
      assoc hfs "summary_sbar" = some (Json.str "S") := by
  have h := (c4_handover_all_or_nothing handoverOkRaw 0 uuidA resHandoverOk
              (by decide)).2.1 ⟨"S", ["a"], []⟩ (by decide)
  obtain ⟨hfs, h1, h2, _, _⟩ := h
  exact ⟨hfs, h1, h2⟩

/-- C10: a `nurse_handover`, `patient_summary` or task `medication_details`
value that is present but an empty object is treated exactly like an absent
or null value — the normalized field is `None` — because the code tests the
raw value for truthiness, and an empty dict is falsy. -/
theorem c10_empty_object_like_absent (raw : Json) (t : Int) (u : Nat → String)
    (r : ProcessingResult) (h : parseResponse raw t u = some r) :
    (handoverRaw raw = some (Json.obj []) → r.documentation.nurse_handover = none) ∧
    (patientSummaryRaw raw = some (Json.obj []) → r.documentation.patient_summary = none) ∧
    (∀ s tfs a, parseTask s (Json.obj tfs) = some a →
        assoc tfs "medication_details" = some (Json.obj []) →
        a.medication_details = none) := by
  obtain ⟨fs, segJs, segments, documentation, taskJs, nurse_tasks, summary,
          hraw, _, _, hdoc, _, _, _, hr⟩ := parseResponse_eq_some h
  subst hraw
  obtain ⟨dfs, hdfs, hnh, hps, _⟩ := parseDocumentation_eq_some hdoc
  have hdocRaw : docRaw (Json.obj fs) = Json.obj dfs := by
    simp only [docRaw]; exact hdfs
  have hrdoc : r.documentation = documentation := by rw [hr]
  refine ⟨?_, ?_, ?_⟩
  · intro hempty
    have : handoverRaw (Json.obj fs) = assoc dfs "nurse_handover" := by
      simp only [handoverRaw, hdocRaw]
    rw [this] at hempty
    rw [hempty] at hnh
    simp [parseIfTruthy, Json.truthy] at hnh
    rw [hrdoc]
    exact hnh.symm
  · intro hempty
    have : patientSummaryRaw (Json.obj fs) = assoc dfs "patient_summary" := by
      simp only [patientSummaryRaw, hdocRaw]
    rw [this] at hempty
    rw [hempty] at hps
    simp [parseIfTruthy, Json.truthy] at hps
    rw [hrdoc]
    exact hps.symm
  · intro s tfs a ha hmed
    obtain ⟨tfs', heq, hmd, _⟩ := parseTask_eq_some ha
    cases heq
    rw [hmed] at hmd
    simp [parseIfTruthy, Json.truthy] at hmd
    exact hmd.symm

/-- C10 witness: `c10_empty_object_like_absent` applied to a raw input whose
handover and patient summary are present as empty objects. -/
theorem c10_witness :
    (emptyResult 0).documentation.nurse_handover = none ∧
    (emptyResult 0).documentation.patient_summary = none := by
  have h := c10_empty_object_like_absent emptyHandoverRaw 0 uuidA (emptyResult 0) (by decide)
  exact ⟨h.1 rfl, h.2.1 rfl⟩

/-- C8: a raw medication object whose `route` key is absent normalizes to a
`Medication` with `route = "oral"`, for the documentation's medication list
and for the medication embedded in a nurse task alike. -/
theorem c8_route_defaults_to_oral :
    (∀ mfs m, Medication.fromDict (Json.obj mfs) = some m →
        assoc mfs "route" = none → m.route = some "oral") ∧
    (∀ raw t u r, parseResponse raw t u = some r →
        ∀ k mfs, (medicationsRaw raw).get? k = some (Json.obj mfs) →
          assoc mfs "route" = none →
          ∃ m, r.documentation.medications.get? k = some m ∧ m.route = some "oral") ∧
    (∀ s tfs a m mfs, parseTask s (Json.obj tfs) = some a →
        assoc tfs "medication_details" = some (Json.obj mfs) →
        assoc mfs "route" = none →
        a.medication_details = some m → m.route = some "oral") := by
  refine ⟨fun mfs m hm hr => medication_fromDict_route hm hr, ?_, ?_⟩
  · intro raw t u r h k mfs hk hroute
    obtain ⟨fs, segJs, segments, documentation, taskJs, nurse_tasks, summary,
            hraw, _, _, hdoc, _, _, _, hr⟩ := parseResponse_eq_some h
    subst hraw
    obtain ⟨dfs, hdfs, _, _, medsJs, hmedsJs, hmeds⟩ := parseDocumentation_eq_some hdoc
    have hdocRaw : docRaw (Json.obj fs) = Json.obj dfs := by
      simp only [docRaw]; exact hdfs
    have hmr : medicationsRaw (Json.obj fs) = medsJs := by
      simp only [medicationsRaw, hdocRaw, hmedsJs, Option.getD_some]
    rw [hmr] at hk
    obtain ⟨m, hm, hget⟩ := optionMapList_get hmeds k _ hk
    refine ⟨m, ?_, medication_fromDict_route hm hroute⟩
    rw [hr]
    exact hget
  · intro s tfs a m mfs ha hmed hroute
    obtain ⟨tfs', heq, hmd, _⟩ := parseTask_eq_some ha
    cases heq
    intro hsome
    rw [hsome] at hmd
    obtain ⟨jv, hjv, _, hfd⟩ := parseIfTruthy_eq_some_some hmd
    rw [hmed] at hjv
    cases hjv
    exact medication_fromDict_route hfd hroute

/-- C8 witness: `c8_route_defaults_to_oral` applied to a raw input with one
documentation medication and one task-embedded medication, both omitting
`route`. -/
theorem c8_witness :
    ∃ m, resMedNoRoute.documentation.medications.get? 0 = some m ∧
      m.route = some "oral" := by
  exact (c8_route_defaults_to_oral.2.1 medNoRouteRaw 0 uuidA resMedNoRoute
          (by decide) 0
          [("drug_name", Json.str "paracetamol"), ("dosage", Json.str "500mg"),
           ("frequency", Json.str "bd")] rfl rfl)

end MedDoc
